import Mathlib

/-!
# Verification of the Res-One fractal core

Shallow embedding of the computational core of the Res-One repository
(`src/fractals.rs`, `src/user.rs`, and the GLSL fragment shader embedded in
`src/lib.rs`), together with proofs and refutations of the specification
claims about it.

## Float model

The Rust code computes in IEEE `f32`.  We model an `f32` value as `Option ℚ`:
`some q` is a finite value (finite arithmetic is modelled exactly over ℚ,
ignoring rounding, which none of the settled claims depend on), and `none`
models a non-finite value (NaN or ±∞).  Arithmetic propagates `none`
(as IEEE NaN does), division by zero yields `none` (IEEE gives NaN or ±∞,
both non-finite), and comparisons against `none` are `false` (IEEE: every
comparison with NaN is false).  Transcendental library functions (`sin`,
`cos`, `acos`, `ln`, `sqrt`, `powf`, `atan2`) have no exact rational
semantics; the embedding is parametrised over an arbitrary interpretation
`FloatOps` of them (returning `none` where the real function would be
non-finite, e.g. `acos` outside [-1,1]), lifted so that a `none` argument
yields `none` (IEEE: these functions map NaN to NaN).  Theorems assume only
concrete facts that the genuine IEEE functions satisfy, such as
`sin 0 = 0`, `cos 0 = 1`, `sqrt 0 = 0` and `powf 0 x = 0` for `x > 0`.
-/

/-- A modelled `f32` value: `some q` is a finite value, `none` is NaN/±∞. -/
abbrev MF : Type := Option ℚ

namespace MF

/-- Addition; any non-finite operand gives a non-finite result. -/
def add : MF → MF → MF
  | some a, some b => some (a + b)
  | _, _ => none

/-- Subtraction. -/
def sub : MF → MF → MF
  | some a, some b => some (a - b)
  | _, _ => none

/-- Multiplication.  Note IEEE `0 * NaN = NaN` and `0 * ∞ = NaN`, so a
non-finite operand always gives a non-finite result. -/
def mul : MF → MF → MF
  | some a, some b => some (a * b)
  | _, _ => none

/-- Division.  Division by zero gives NaN or ±∞, i.e. non-finite. -/
def div : MF → MF → MF
  | some a, some b => if b = 0 then none else some (a / b)
  | _, _ => none

instance : Add MF := ⟨MF.add⟩
instance : Sub MF := ⟨MF.sub⟩
instance : Mul MF := ⟨MF.mul⟩
instance : Div MF := ⟨MF.div⟩

/-- Strict less-than, `false` whenever an operand is non-finite (IEEE NaN
comparison semantics; ±∞ is conflated with NaN by this model, which is
sound for every input this development evaluates). -/
def flt : MF → MF → Bool
  | some a, some b => decide (a < b)
  | _, _ => false

/-- Strict greater-than, `false` on non-finite operands. -/
def fgt : MF → MF → Bool
  | some a, some b => decide (b < a)
  | _, _ => false

/-- Rust `f32::min`: if one argument is NaN the other is returned. -/
def fmin : MF → MF → MF
  | some a, some b => some (min a b)
  | none, b => b
  | a, none => a

/-- Rust `f32::max`: if one argument is NaN the other is returned. -/
def fmax : MF → MF → MF
  | some a, some b => some (max a b)
  | none, b => b
  | a, none => a

/-- Absolute value. -/
def fabs : MF → MF
  | some a => some |a|
  | none => none

/-- Truncation of a rational toward zero, as `f32::trunc` does. -/
def ratTrunc (q : ℚ) : ℚ := if 0 ≤ q then (⌊q⌋ : ℚ) else (-⌊-q⌋ : ℚ)

/-- Rust `f32::fract`, i.e. `self - self.trunc()`.  For a negative input in
`(-1, 0)` this returns the (negative) input itself, not a value in `[0,1)`. -/
def fract : MF → MF
  | some q => some (q - ratTrunc q)
  | none => none

/-- Rust `%` on floats: the remainder `a - b * trunc (a / b)`, with the sign
of the dividend. -/
def frem : MF → MF → MF
  | some a, some b => if b = 0 then none else some (a - b * ratTrunc (a / b))
  | _, _ => none

end MF

/-- An interpretation of the `f32` transcendental library functions used by
the fractal code.  Each returns `none` at arguments where the genuine IEEE
function is non-finite (e.g. `acos` outside `[-1, 1]`, `ln` at `0` or below). -/
structure FloatOps where
  sin : ℚ → MF
  cos : ℚ → MF
  acos : ℚ → MF
  atan2 : ℚ → ℚ → MF
  ln : ℚ → MF
  sqrt : ℚ → MF
  powf : ℚ → ℚ → MF

namespace FloatOps

/-- `sin` lifted to modelled floats; NaN maps to NaN. -/
def msin (o : FloatOps) : MF → MF
  | some q => o.sin q
  | none => none

/-- `cos` lifted to modelled floats. -/
def mcos (o : FloatOps) : MF → MF
  | some q => o.cos q
  | none => none

/-- `acos` lifted to modelled floats. -/
def macos (o : FloatOps) : MF → MF
  | some q => o.acos q
  | none => none

/-- `ln` lifted to modelled floats. -/
def mln (o : FloatOps) : MF → MF
  | some q => o.ln q
  | none => none

/-- `sqrt` lifted to modelled floats. -/
def msqrt (o : FloatOps) : MF → MF
  | some q => o.sqrt q
  | none => none

/-- `atan2` lifted to modelled floats. -/
def matan2 (o : FloatOps) : MF → MF → MF
  | some a, some b => o.atan2 a b
  | _, _ => none

/-- `powf` lifted to modelled floats. -/
def mpowf (o : FloatOps) : MF → MF → MF
  | some a, some b => o.powf a b
  | _, _ => none

end FloatOps

/-- A concrete computable interpretation of the transcendental functions,
satisfying the concrete IEEE facts (`sin 0 = 0`, `cos 0 = 1`, `sqrt 0 = 0`,
`powf 0 x = 0`) that several theorems of this development hypothesise.
Used only to produce closed witnesses for theorems with hypotheses. -/
def stubOps : FloatOps where
  sin := fun _ => some 0
  cos := fun _ => some 1
  acos := fun _ => none
  atan2 := fun _ _ => some 0
  ln := fun q => some q
  sqrt := fun _ => some 0
  powf := fun _ _ => some 0

/-- A second concrete interpretation whose `sin` and `cos` always return
`-1`, satisfying the bound hypotheses (`sin x ≤ -3/5`, `cos x ≤ -3/5` at the
chosen arguments) of the hue theorem; the genuine IEEE `sin`/`cos` attain
such values at suitable real arguments.  Used only for closed witnesses. -/
def hueStubOps : FloatOps where
  sin := fun _ => some (-1)
  cos := fun _ => some (-1)
  acos := fun _ => none
  atan2 := fun _ _ => some 0
  ln := fun q => some q
  sqrt := fun _ => some 0
  powf := fun _ _ => some 0

/-!
## Geometry types
-/

/-- A finite 4D input point (`nalgebra::Vector4<f32>` with finite entries). -/
structure MQ4 where
  x : ℚ
  y : ℚ
  z : ℚ
  w : ℚ
  deriving DecidableEq

/-- A 3D vector of modelled floats (`nalgebra::Vector3<f32>`). -/
structure MV3 where
  x : MF
  y : MF
  z : MF
  deriving DecidableEq

/-- `Vector3::norm`: the Euclidean norm, `sqrt (x² + y² + z²)`. -/
def norm3 (o : FloatOps) (v : MV3) : MF :=
  o.msqrt (v.x * v.x + v.y * v.y + v.z * v.z)

/-!
## Mandelbulb (`src/fractals.rs`, lines 12-70)
-/

/-- The `Mandelbulb` parameter record (`power`, `iterations`, `time`). -/
structure MandelbulbP where
  power : ℚ
  iterations : ℕ
  time : ℚ
  deriving DecidableEq

/-- One loop state of `Mandelbulb::distance_estimator`: `(z, dr, r)`. -/
abbrev MbState : Type := MV3 × MF × MF

/-- The `for _ in 0..self.iterations` loop of `Mandelbulb::distance_estimator`,
with fuel equal to the remaining passes.  Returns the final `(z, dr, r)`
state together with the number of completed (non-breaking) passes.
Each pass recomputes `r = |z|`, breaks if `r > 2`, and otherwise updates
`dr` and `z` exactly as in the source. -/
def mbLoop (o : FloatOps) (dynPower : MF) (p : MandelbulbP) (pos : MQ4) :
    ℕ → MbState → MbState × ℕ
  | 0, s => (s, 0)
  | n + 1, (z, dr, _) =>
      let r := norm3 o z
      if MF.fgt r (some 2) then ((z, dr, r), 0)
      else
        let theta := o.macos (MF.div z.z r) + some (pos.w * (1/10)) +
          some (p.time * (1/20))
        let phi := o.matan2 z.y z.x + some (p.time * (3/100))
        let dr2 := o.mpowf r (dynPower - some 1) * dynPower * dr + some 1
        let zr := o.mpowf r dynPower
        let z2 : MV3 :=
          ⟨zr * o.msin theta * o.mcos phi + some pos.x,
           zr * o.msin theta * o.msin phi + some pos.y,
           zr * o.mcos theta + some pos.z⟩
        let rest := mbLoop o dynPower p pos n (z2, dr2, r)
        (rest.1, rest.2 + 1)

/-- `Mandelbulb::distance_estimator`, up to the final
`0.5 * r.ln() * r / dr`: runs the loop from `z = pos.xyz`, `dr = 1`,
`r = 0`, with the time-evolving power
`dynamic_power = power + sin(time * 0.1) * 2.0`. -/
def mandelbulbRun (o : FloatOps) (p : MandelbulbP) (pos : MQ4) : MbState × ℕ :=
  let dynPower := some p.power + o.msin (some (p.time * (1/10))) * some 2
  mbLoop o dynPower p pos p.iterations
    (⟨some pos.x, some pos.y, some pos.z⟩, some 1, some 0)

/-- `Mandelbulb::distance_estimator` (`src/fractals.rs`, lines 19-46):
the final result `0.5 * r.ln() * r / dr`. -/
def mandelbulbDE (o : FloatOps) (p : MandelbulbP) (pos : MQ4) : MF :=
  let st := (mandelbulbRun o p pos).1
  MF.div (some (1/2) * o.mln st.2.2 * st.2.2) st.2.1

/-- The number of completed loop passes of `Mandelbulb::distance_estimator`. -/
def mandelbulbPasses (o : FloatOps) (p : MandelbulbP) (pos : MQ4) : ℕ :=
  (mandelbulbRun o p pos).2

/-!
## HSV → RGB (`src/fractals.rs`, `hsv_to_rgb`, lines 232-253)
-/

/-- `hsv_to_rgb`: `c = v*s`, `hp = (h*6) % 6`, `x = c*(1-|hp % 2 - 1|)`,
`m = v - c`; the sextant is selected by `hp < 1, < 2, ..., < 5, else`
(with Rust float `%` and comparison semantics), and `m` is added to each
channel. -/
def hsvToRgb (h s v : MF) : MF × MF × MF :=
  let c := v * s
  let hp := MF.frem (h * some 6) (some 6)
  let x := c * (some 1 - MF.fabs (MF.frem hp (some 2) - some 1))
  let m := v - c
  let rgb : MF × MF × MF :=
    if MF.flt hp (some 1) then (c, x, some 0)
    else if MF.flt hp (some 2) then (x, c, some 0)
    else if MF.flt hp (some 3) then (some 0, c, x)
    else if MF.flt hp (some 4) then (some 0, x, c)
    else if MF.flt hp (some 5) then (x, some 0, c)
    else (c, some 0, x)
  (rgb.1 + m, rgb.2.1 + m, rgb.2.2 + m)

/-!
## Mandelbulb colouring (`src/fractals.rs`, `Mandelbulb::get_color`)
-/

/-- The argument of the `base_hue` sine in `Mandelbulb::get_color`:
`iteration_factor * 6.0 + time * 0.5`, where
`iteration_factor = iterations as f32 / self.iterations as f32`. -/
def mbBaseHueArg (p : MandelbulbP) (its : ℤ) : MF :=
  MF.div (some (its : ℚ)) (some (p.iterations : ℚ)) * some 6 +
    some (p.time * (1/2))

/-- The argument of the `depth_hue` cosine: `pos.w * 3.0 + time * 0.3`. -/
def mbDepthHueArg (p : MandelbulbP) (pos : MQ4) : ℚ :=
  pos.w * 3 + p.time * (3/10)

/-- The argument of the `position_hue` sine:
`(pos.x + pos.y + pos.z) * 0.1 + time * 0.1`. -/
def mbPositionHueArg (p : MandelbulbP) (pos : MQ4) : ℚ :=
  (pos.x + pos.y + pos.z) * (1/10) + p.time * (1/10)

/-- The hue computed by `Mandelbulb::get_color` (lines 50-57): the sum of
the three sinusoidal contributions
`base_hue = sin(...) * 0.5 + 0.5`, `depth_hue = cos(...) * 0.3`,
`position_hue = sin(...) * 0.2`, passed through `f32::fract`. -/
def mandelbulbHue (o : FloatOps) (p : MandelbulbP) (its : ℤ) (pos : MQ4) : MF :=
  let baseHue := o.msin (mbBaseHueArg p its) * some (1/2) + some (1/2)
  let depthHue := o.mcos (some (mbDepthHueArg p pos)) * some (3/10)
  let positionHue := o.msin (some (mbPositionHueArg p pos)) * some (1/5)
  MF.fract (baseHue + depthHue + positionHue)

/-- `Mandelbulb::get_color` (`src/fractals.rs`, lines 48-67). -/
def mandelbulbGetColor (o : FloatOps) (p : MandelbulbP) (its : ℤ)
    (distance : MF) (pos : MQ4) : MF × MF × MF :=
  let hue := mandelbulbHue o p its pos
  let saturation :=
    some (4/5) + (some 1 - MF.fmin distance (some 1)) * some (1/5)
  let pulse :=
    o.msin (some (p.time * 2 + pos.x * (1/2))) * some (3/10) + some (7/10)
  let value :=
    (some 1 - MF.fmin (distance * some 4) (some (9/10))) * pulse
  hsvToRgb hue saturation value

/-!
## Audio extraction (`src/fractals.rs`, `FractalAudioAnalyzer`)
-/

/-- The `&dyn FractalGenerator` interface consumed by
`FractalAudioAnalyzer::extract_frequencies`: a distance estimator and a
colouring function. -/
structure FractalGeneratorI where
  distanceEstimator : MQ4 → MF
  getColor : ℤ → MF → MQ4 → MF × MF × MF

/-- The `Mandelbulb` implementation of the generator interface. -/
def mandelbulbGen (o : FloatOps) (p : MandelbulbP) : FractalGeneratorI :=
  ⟨mandelbulbDE o p, fun its d pos => mandelbulbGetColor o p its d pos⟩

/-- `FractalAudioAnalyzer::extract_frequencies` (lines 259-274): for each
sample point, evaluate the distance estimator and `get_color` with the
fixed iteration argument 8, and map to
`220.0 * (1.0 + distance * 0.5) * (1.0 + color.x * 0.3)`. -/
def extractFrequencies (g : FractalGeneratorI) (samplePoints : List MQ4) :
    List MF :=
  samplePoints.map (fun point =>
    let distance := g.distanceEstimator point
    let color := g.getColor 8 distance point
    some 220 * (some 1 + distance * some (1/2)) *
      (some 1 + color.1 * some (3/10)))

/-!
## GPU-side re-implementations (`src/lib.rs`, `FRAGMENT_SHADER` string)

The fragment shader embedded in `src/lib.rs` re-implements each fractal
distance function in GLSL.  These are the shader-side counterparts of the
host functions above, transliterated from the GLSL source; the loop bounds
(the `for(int i = 0; i < N; i++)` caps) are the named `...Cap` constants.
-/

/-- A finite 3D point (`vec3` input of the shader distance functions). -/
structure Q3 where
  x : ℚ
  y : ℚ
  z : ℚ
  deriving DecidableEq

/-- The loop cap of the shader `mandelbulb`: `for(int i = 0; i < 10; i++)`. -/
def shaderMandelbulbCap : ℕ := 10

/-- The loop of the shader `mandelbulb` function. -/
def sbmLoop (o : FloatOps) (power : MF) (time seed : ℚ) (pos : Q3) :
    ℕ → MbState → MbState
  | 0, s => s
  | n + 1, (z, dr, _) =>
      let r := norm3 o z
      if MF.fgt r (some 2) then (z, dr, r)
      else
        let theta := o.macos (MF.div z.z r) + some (time * (1/20))
        let phi := o.matan2 z.y z.x + some (seed * (1/1000))
        let dr2 := o.mpowf r (power - some 1) * power * dr + some 1
        let zr := o.mpowf r power
        let z2 : MV3 :=
          ⟨zr * (o.msin theta * o.mcos phi) + some pos.x,
           zr * (o.msin theta * o.msin phi) + some pos.y,
           zr * o.mcos theta + some pos.z⟩
        sbmLoop o power time seed pos n (z2, dr2, r)

/-- The shader function `mandelbulb(vec3 pos, float time, float seed)`:
`power = 6.0 + sin(time*0.1 + seed*0.001) * 3.0`, loop cap 10,
`theta = acos(z.z/r) + time*0.05`, `phi = atan(z.y, z.x) + seed*0.001`,
result `0.5 * log(r) * r / dr`. -/
def shaderMandelbulb (o : FloatOps) (pos : Q3) (time seed : ℚ) : MF :=
  let power := some 6 + o.msin (some (time * (1/10) + seed * (1/1000))) * some 3
  let st := sbmLoop o power time seed pos shaderMandelbulbCap
    (⟨some pos.x, some pos.y, some pos.z⟩, some 1, some 0)
  MF.div (some (1/2) * o.mln st.2.2 * st.2.2) st.2.1

/-- A 4D vector of modelled floats (shader `vec4`). -/
structure MV4 where
  x : MF
  y : MF
  z : MF
  w : MF
  deriving DecidableEq

/-- `dot` on `vec4`. -/
def dot4 (a b : MV4) : MF := a.x * b.x + a.y * b.y + a.z * b.z + a.w * b.w

/-- The loop cap of the shader `julia4d`: `for(int i = 0; i < 8; i++)`. -/
def shaderJulia4dCap : ℕ := 8

/-- The loop of the shader `julia4d` function. -/
def sbjLoop (c : MV4) : ℕ → MV4 → MV4
  | 0, z => z
  | n + 1, z =>
      if MF.fgt (dot4 z z) (some 4) then z
      else
        let x := z.x * z.x - z.y * z.y - z.z * z.z - z.w * z.w + c.x
        let y := some 2 * z.x * z.y + c.y
        let zz := some 2 * z.x * z.z + c.z
        let w := some 2 * z.x * z.w + c.w
        sbjLoop c n ⟨x, y, zz, w⟩

/-- The shader function `julia4d(vec3 pos, float time, float seed)`:
`z = vec4(pos, sin(time*0.1)*0.5)`, a seed-derived constant `c`, loop cap 8
with escape test `dot(z, z) > 4.0`, and result `length(z.xyz) - 1.0`
(no derivative tracking, unlike the host implementation). -/
def shaderJulia4d (o : FloatOps) (pos : Q3) (time seed : ℚ) : MF :=
  let z0 : MV4 :=
    ⟨some pos.x, some pos.y, some pos.z,
     o.msin (some (time * (1/10))) * some (1/2)⟩
  let c : MV4 :=
    ⟨o.msin (some (seed * (1/1000))) * some (7/10),
     o.mcos (some (seed * (13/10000))) * some (1/2),
     o.msin (some (time * (1/10) + seed * (1/500))) * some (3/10),
     o.mcos (some (time * (7/100) + seed * (17/10000))) * some (2/5)⟩
  let z := sbjLoop c shaderJulia4dCap z0
  o.msqrt (z.x * z.x + z.y * z.y + z.z * z.z) - some 1

/-- The loop cap of the shader `kaleidoIFS`: `for(int i = 0; i < 5; i++)`. -/
def shaderKaleidoCap : ℕ := 5

/-- The loop of the shader `kaleidoIFS` function; the first argument is
the loop index `i` (used by the fold angle and the dynamic scale). -/
def sbkLoop (o : FloatOps) (time seed : ℚ) : ℕ → ℕ → MV3 × MF → MV3 × MF
  | _, 0, s => s
  | i, n + 1, (p, scale) =>
      let angle : ℚ := time * (1/10) + (i : ℚ) * (1/2) + seed * (1/100)
      let nx := o.cos angle
      let ny := o.sin angle
      let nz := o.sin (angle * (13/10))
      let len := o.msqrt (nx * nx + ny * ny + nz * nz)
      let fn : MV3 := ⟨MF.div nx len, MF.div ny len, MF.div nz len⟩
      let d := p.x * fn.x + p.y * fn.y + p.z * fn.z
      let p1 : MV3 :=
        if MF.flt d (some 0) then
          ⟨p.x - some 2 * d * fn.x, p.y - some 2 * d * fn.y,
           p.z - some 2 * d * fn.z⟩
        else p
      let boxFold : MF → MF := fun xx =>
        MF.fmin (MF.fmax xx (some (-1))) (some 1) * some 2 - xx
      let p2 : MV3 := ⟨boxFold p1.x, boxFold p1.y, boxFold p1.z⟩
      let r2 := p2.x * p2.x + p2.y * p2.y + p2.z * p2.z
      let folded : MV3 × MF :=
        if MF.flt r2 (some (1/4)) then
          (⟨p2.x * some 4, p2.y * some 4, p2.z * some 4⟩, scale * some 4)
        else if MF.flt r2 (some 1) then
          (⟨MF.div p2.x r2, MF.div p2.y r2, MF.div p2.z r2⟩, MF.div scale r2)
        else (p2, scale)
      let s := some (8/5) +
        o.msin (some (time * (1/20) + (i : ℚ) * (1/10))) * some (1/5)
      sbkLoop o time seed (i + 1) n
        (⟨folded.1.x * s, folded.1.y * s, folded.1.z * s⟩, folded.2 * s)

/-- The shader function `kaleidoIFS(vec3 pos, float time, float seed)`:
loop cap 5, dynamic scale `1.6 + sin(time*0.05 + i*0.1)*0.2`, result
`(length(p) - 0.5) / abs(scale)`. -/
def shaderKaleidoIFS (o : FloatOps) (pos : Q3) (time seed : ℚ) : MF :=
  let st := sbkLoop o time seed 0 shaderKaleidoCap
    (⟨some pos.x, some pos.y, some pos.z⟩, some 1)
  MF.div
    (o.msqrt (st.1.x * st.1.x + st.1.y * st.1.y + st.1.z * st.1.z) - some (1/2))
    (MF.fabs st.2)

/-!
## Seed derivation (`src/user.rs`, `UserState::generate_daily_seed`)

The Rust function reads the current date from `js_sys::Date` and hashes the
UTF-8 bytes of the user id followed by the decimal digits of
`year*10000 + month*100 + day`, where `month` is the value of the JavaScript
`Date::get_month()`, which is ZERO-based (0 = January).  The embedding takes
the calendar date as explicit inputs, with `month` the 1-based calendar
month, so the `get_month()` of the code is `month - 1`.
-/

/-- The 32-bit wrapping rolling hash `hash = hash*31 + byte` from
`generate_daily_seed`, over a list of byte values. -/
def rollHash (bytes : List ℕ) : ℕ :=
  bytes.foldl (fun h b => (h * 31 + b) % 2 ^ 32) 0

/-- The decimal digits of `n`, least-significant first, computed by repeated
division by 10 (with explicit fuel so that the kernel can evaluate it; any
fuel of at least the digit count of `n` gives the same result). -/
def decDigitsRev : ℕ → ℕ → List ℕ
  | 0, _ => []
  | _ + 1, 0 => []
  | fuel + 1, n + 1 => (n + 1) % 10 :: decDigitsRev fuel ((n + 1) / 10)

/-- The ASCII bytes of the decimal representation of `n`, as produced by
Rust `u32::to_string` (most-significant digit first; `0` prints as "0"). -/
def decimalDigitBytes (n : ℕ) : List ℕ :=
  (if n = 0 then [0] else (decDigitsRev n n).reverse).map (fun d => d + 48)

/-- `UserState::generate_daily_seed` from `src/user.rs`: hash of the user-id
bytes followed by the decimal digits of the day code
`year*10000 + get_month()*100 + day`.  `month` is the 1-based calendar
month; JavaScript `get_month()` is `month - 1`. -/
def generateDailySeed (userBytes : List ℕ) (year month day : ℕ) : ℕ :=
  let dayCode := year * 10000 + (month - 1) * 100 + day
  rollHash (userBytes ++ decimalDigitBytes dayCode)

/-- The seed derivation as the specification states it: the day code uses
the 1-based calendar month directly (`year*10000 + month*100 + day`).
Stated from the words of the spec, for comparison with `generateDailySeed`. -/
def specDailySeed (userBytes : List ℕ) (year month day : ℕ) : ℕ :=
  rollHash (userBytes ++ decimalDigitBytes (year * 10000 + month * 100 + day))

/-!
## Snapshot records and resonance (`src/user.rs`)
-/

/-- `FrozenFractal` from `src/user.rs`: a frozen fractal snapshot.  The
16-element `transform_matrix` is the row-major flattening of a 4×4 matrix
(finite entries are modelled exactly as rationals). -/
structure FrozenFractal where
  seed : ℕ
  fractalType : String
  transformMatrix : Fin 16 → ℚ
  complexityScore : ℚ
  timestamp : ℕ
  interactionCount : ℕ

/-- The trace of the 4×4 matrix rebuilt by `Matrix4::from_row_slice` from a
row-major 16-element slice: the sum of entries 0, 5, 10, 15. -/
def traceOfRowSlice (t : Fin 16 → ℚ) : ℚ := t 0 + t 5 + t 10 + t 15

/-- The trace-similarity term of `UserState::calculate_resonance`:
`1 / (1 + |trace_a - trace_b|)`. -/
def traceSimilarity (a b : FrozenFractal) : ℚ :=
  1 / (1 + |traceOfRowSlice a.transformMatrix - traceOfRowSlice b.transformMatrix|)

/-- The seed-harmony term of `UserState::calculate_resonance`:
`1 / (1 + |seed_a - seed_b| / 1000)`. -/
def seedHarmony (a b : FrozenFractal) : ℚ :=
  1 / (1 + |(a.seed : ℚ) - (b.seed : ℚ)| / 1000)

/-- `UserState::calculate_resonance` from `src/user.rs`: the average of the
trace-similarity and seed-harmony terms. -/
def calculateResonance (a b : FrozenFractal) : ℚ :=
  (traceSimilarity a b + seedHarmony a b) * (1 / 2)

/-!
## The fractal factory (`src/fractals.rs`, `create_fractal_from_seed`)
-/

/-- The per-variant parameter records of the three fractal generators
(`Mandelbulb`, `Julia4D`, `KaleidoIFS` in `src/fractals.rs`), as a closed
sum.  `iterations` / `foldCount` are `i32` in the source; the factory only
ever produces small positive values, and the `for _ in 0..n` loops of the
source run `max n 0` passes, so they are modelled as `ℕ`. -/
inductive FractalField
  | mandelbulb (power : ℚ) (iterations : ℕ) (time : ℚ)
  | julia4D (c : ℚ × ℚ × ℚ × ℚ) (iterations : ℕ) (time : ℚ)
  | kaleidoIFS (foldCount : ℕ) (scale : ℚ) (time : ℚ)
  deriving DecidableEq

/-- `create_fractal_from_seed` from `src/fractals.rs`: deterministic
seed-to-variant/parameter mapping. -/
def createFractalFromSeed (seed : ℕ) (time : ℚ) : FractalField :=
  match seed % 3 with
  | 0 =>
      FractalField.mandelbulb (6 + ((seed / 3 % 8 : ℕ) : ℚ))
        (8 + seed / 24 % 4) time
  | 1 =>
      let cSeed := seed / 100
      FractalField.julia4D
        ((((cSeed % 1000 : ℕ) : ℚ) / 1000 - 1/2) * 2,
         (((cSeed / 1000 % 1000 : ℕ) : ℚ) / 1000 - 1/2) * 2,
         (((cSeed / 1000000 % 1000 : ℕ) : ℚ) / 1000 - 1/2) * 2,
         (((cSeed / 1000000000 % 1000 : ℕ) : ℚ) / 1000 - 1/2) * 2)
        (8 + seed / 13 % 6) time
  | _ =>
      FractalField.kaleidoIFS (4 + seed / 7 % 8)
        (3/2 + ((seed / 17 % 10 : ℕ) : ℚ) * (3/10)) time

/-- The loop bound of the distance estimator of each variant: `iterations`
for `Mandelbulb` and `Julia4D`, `fold_count` for `KaleidoIFS`. -/
def FractalField.iterBound : FractalField → ℕ
  | .mandelbulb _ i _ => i
  | .julia4D _ i _ => i
  | .kaleidoIFS f _ _ => f

/-- `get_name` of each variant (`src/fractals.rs`). -/
def FractalField.familyName : FractalField → String
  | .mandelbulb _ _ _ => "Mandelbulb"
  | .julia4D _ _ _ => "Julia4D"
  | .kaleidoIFS _ _ _ => "KaleidoIFS"

/-!
## Simp lemmas for the float model
-/

@[simp] theorem MF.add_none (x : MF) : x + none = none := by cases x <;> rfl
@[simp] theorem MF.none_add (x : MF) : none + x = none := rfl
@[simp] theorem MF.sub_none (x : MF) : x - none = none := by cases x <;> rfl
@[simp] theorem MF.none_sub (x : MF) : none - x = none := rfl
@[simp] theorem MF.mul_none (x : MF) : x * none = none := by cases x <;> rfl
@[simp] theorem MF.none_mul (x : MF) : none * x = none := rfl
@[simp] theorem MF.div_none (x : MF) : x / none = none := by cases x <;> rfl
@[simp] theorem MF.none_div (x : MF) : none / x = none := rfl
@[simp] theorem MF.fabs_none : MF.fabs none = none := rfl
@[simp] theorem MF.fract_none : MF.fract none = none := rfl
@[simp] theorem MF.flt_none (x : MF) : MF.flt x none = false := by
  cases x <;> rfl
@[simp] theorem MF.none_flt (x : MF) : MF.flt none x = false := rfl
@[simp] theorem MF.fgt_none (x : MF) : MF.fgt x none = false := by
  cases x <;> rfl
@[simp] theorem MF.none_fgt (x : MF) : MF.fgt none x = false := rfl

@[simp] theorem MF.some_add_some (a b : ℚ) :
    (some a + some b : MF) = some (a + b) := rfl
@[simp] theorem MF.some_sub_some (a b : ℚ) :
    (some a - some b : MF) = some (a - b) := rfl
@[simp] theorem MF.some_mul_some (a b : ℚ) :
    (some a * some b : MF) = some (a * b) := rfl
theorem MF.some_div_some (a b : ℚ) :
    (some a / some b : MF) = if b = 0 then none else some (a / b) := rfl
@[simp] theorem MF.some_div_some_ne (a b : ℚ) (h : b ≠ 0) :
    (some a / some b : MF) = some (a / b) := by
  simp [MF.some_div_some, h]
@[simp] theorem MF.some_flt_some (a b : ℚ) :
    MF.flt (some a) (some b) = decide (a < b) := rfl
@[simp] theorem MF.some_fgt_some (a b : ℚ) :
    MF.fgt (some a) (some b) = decide (b < a) := rfl
@[simp] theorem MF.fmin_some_some (a b : ℚ) :
    MF.fmin (some a) (some b) = some (min a b) := rfl
@[simp] theorem MF.fmin_none (b : MF) : MF.fmin none b = b := by cases b <;> rfl
@[simp] theorem MF.fmin_some_none (a : ℚ) : MF.fmin (some a) none = some a := rfl
@[simp] theorem MF.fabs_some (a : ℚ) : MF.fabs (some a) = some |a| := rfl

@[simp] theorem MF.mfdiv_none (x : MF) : MF.div x none = none := by
  cases x <;> rfl
@[simp] theorem MF.none_mfdiv (x : MF) : MF.div none x = none := rfl
@[simp] theorem MF.mfdiv_some_zero (a : ℚ) : MF.div (some a) (some 0) = none := by
  simp [MF.div]
@[simp] theorem MF.mfdiv_some_some (a b : ℚ) (h : b ≠ 0) :
    MF.div (some a) (some b) = some (a / b) := by
  simp [MF.div, h]

@[simp] theorem FloatOps.msin_none (o : FloatOps) : o.msin none = none := rfl
@[simp] theorem FloatOps.mcos_none (o : FloatOps) : o.mcos none = none := rfl
@[simp] theorem FloatOps.macos_none (o : FloatOps) : o.macos none = none := rfl
@[simp] theorem FloatOps.mln_none (o : FloatOps) : o.mln none = none := rfl
@[simp] theorem FloatOps.msqrt_none (o : FloatOps) : o.msqrt none = none := rfl
@[simp] theorem FloatOps.mpowf_none (o : FloatOps) (y : MF) :
    o.mpowf none y = none := rfl
@[simp] theorem FloatOps.msin_some (o : FloatOps) (q : ℚ) :
    o.msin (some q) = o.sin q := rfl
@[simp] theorem FloatOps.mcos_some (o : FloatOps) (q : ℚ) :
    o.mcos (some q) = o.cos q := rfl
@[simp] theorem FloatOps.macos_some (o : FloatOps) (q : ℚ) :
    o.macos (some q) = o.acos q := rfl
@[simp] theorem FloatOps.mln_some (o : FloatOps) (q : ℚ) :
    o.mln (some q) = o.ln q := rfl
@[simp] theorem FloatOps.msqrt_some (o : FloatOps) (q : ℚ) :
    o.msqrt (some q) = o.sqrt q := rfl
@[simp] theorem FloatOps.mpowf_some_some (o : FloatOps) (a b : ℚ) :
    o.mpowf (some a) (some b) = o.powf a b := rfl
@[simp] theorem FloatOps.matan2_some_some (o : FloatOps) (a b : ℚ) :
    o.matan2 (some a) (some b) = o.atan2 a b := rfl

/-- `f32::fract` is the identity on finite values in `[0, 1)`. -/
theorem MF.fract_some_of_Ico (q : ℚ) (h0 : 0 ≤ q) (h1 : q < 1) :
    MF.fract (some q) = some q := by
  have hf : ⌊q⌋ = 0 := Int.floor_eq_zero_iff.mpr ⟨h0, h1⟩
  simp [MF.fract, MF.ratTrunc, h0, hf]

/-- `f32::fract` is the identity on finite values in `(-1, 0)`: it does NOT
wrap negative inputs into `[0, 1)`. -/
theorem MF.fract_some_neg (q : ℚ) (h0 : -1 < q) (h1 : q < 0) :
    MF.fract (some q) = some q := by
  have hq : ¬ (0 ≤ q) := by linarith
  have hf : ⌊-q⌋ = 0 := Int.floor_eq_zero_iff.mpr ⟨by linarith, by linarith⟩
  simp [MF.fract, MF.ratTrunc, hq, hf]

/-!
## Helper lemmas
-/

/-- `1 / (1 + x)` lies in `(0, 1]` whenever `0 ≤ x`. -/
theorem oneDivOneAdd (x : ℚ) (hx : 0 ≤ x) :
    0 < 1 / (1 + x) ∧ 1 / (1 + x) ≤ 1 := by
  constructor
  · positivity
  · rw [div_le_one (by linarith)]
    linarith

/-- The rolling hash stays below `2^32` (it reduces mod `2^32` at every
step, and starts at 0). -/
theorem rollHash_lt (l : List ℕ) : rollHash l < 2 ^ 32 := by
  have key : ∀ (l : List ℕ) (h : ℕ), h < 2 ^ 32 →
      l.foldl (fun h b => (h * 31 + b) % 2 ^ 32) h < 2 ^ 32 := by
    intro l
    induction l with
    | nil => intro h hh; simpa using hh
    | cons b t ih =>
        intro h _
        exact ih _ (Nat.mod_lt _ (by norm_num))
  exact key l 0 (by norm_num)

/-- The Mandelbulb loop completes at most as many passes as its fuel. -/
theorem mbLoop_count_le (o : FloatOps) (dp : MF) (p : MandelbulbP) (pos : MQ4) :
    ∀ (n : ℕ) (s : MbState), (mbLoop o dp p pos n s).2 ≤ n := by
  intro n
  induction n with
  | zero => intro s; simp [mbLoop]
  | succ n ih =>
      intro s
      obtain ⟨z, dr, r⟩ := s
      simp only [mbLoop]
      split
      · simp
      · simpa using ih _

/-- Once the loop state is entirely non-finite, it stays non-finite: every
further pass recomputes `r = NaN`, fails the escape comparison (NaN
comparisons are false), and propagates NaN through `dr` and `z`. -/
theorem mbNanSteady (o : FloatOps) (dp : MF) (p : MandelbulbP) (pos : MQ4) :
    ∀ n : ℕ, mbLoop o dp p pos n (⟨none, none, none⟩, none, none) =
      ((⟨none, none, none⟩, none, none), n) := by
  intro n
  induction n with
  | zero => simp [mbLoop]
  | succ n ih => simp [mbLoop, norm3, ih]

/-- At `pos = (0,0,0,0)` with `power = 6`, `iterations = n+2`, `time = 0`,
the first pass computes `acos(0/0) = NaN` (the iterate starts at the origin
so `r = 0`), `z` becomes entirely NaN, the escape test never fires, and the
loop runs all its passes ending in the all-NaN state. -/
theorem mbOriginLoop (o : FloatOps)
    (hsqrt0 : o.sqrt 0 = some 0)
    (hp5 : o.powf 0 5 = some 0) (hp6 : o.powf 0 6 = some 0) :
    ∀ n : ℕ, mbLoop o (some 6) ⟨6, 8, 0⟩ ⟨0, 0, 0, 0⟩ (n + 2)
      (⟨some 0, some 0, some 0⟩, some 1, some 0) =
      ((⟨none, none, none⟩, none, none), n + 2) := by
  intro n
  norm_num [mbLoop, norm3, hsqrt0, hp5, hp6,
    mbNanSteady o (some 6) ⟨6, 8, 0⟩ ⟨0, 0, 0, 0⟩]

/-- The full Mandelbulb run for the factory field of seed 0 (power 6,
iterations 8, time 0) at the origin: 8 completed passes, all-NaN final
state. -/
theorem mbOriginRunEval (o : FloatOps)
    (hsin0 : o.sin 0 = some 0) (hsqrt0 : o.sqrt 0 = some 0)
    (hp5 : o.powf 0 5 = some 0) (hp6 : o.powf 0 6 = some 0) :
    mandelbulbRun o ⟨6, 8, 0⟩ ⟨0, 0, 0, 0⟩ =
      ((⟨none, none, none⟩, none, none), 8) := by
  have h := mbOriginLoop o hsqrt0 hp5 hp6 6
  norm_num at h
  unfold mandelbulbRun
  norm_num [hsin0, h]

/-- `Mandelbulb::distance_estimator` returns NaN at the origin for the
parameters `power = 6`, `iterations = 8`, `time = 0`. -/
theorem mandelbulbDE_origin_nan (o : FloatOps)
    (hsin0 : o.sin 0 = some 0) (hsqrt0 : o.sqrt 0 = some 0)
    (hp5 : o.powf 0 5 = some 0) (hp6 : o.powf 0 6 = some 0) :
    mandelbulbDE o ⟨6, 8, 0⟩ ⟨0, 0, 0, 0⟩ = none := by
  unfold mandelbulbDE
  rw [mbOriginRunEval o hsin0 hsqrt0 hp5 hp6]
  simp

/-- The loop at the origin completes exactly its 8 allotted passes. -/
theorem mandelbulbPasses_origin (o : FloatOps)
    (hsin0 : o.sin 0 = some 0) (hsqrt0 : o.sqrt 0 = some 0)
    (hp5 : o.powf 0 5 = some 0) (hp6 : o.powf 0 6 = some 0) :
    mandelbulbPasses o ⟨6, 8, 0⟩ ⟨0, 0, 0, 0⟩ = 8 := by
  unfold mandelbulbPasses
  rw [mbOriginRunEval o hsin0 hsqrt0 hp5 hp6]

/-- The Mandelbulb distance-estimator loop performs at most `iterations`
passes, for every parameter record and every input point. -/
theorem mandelbulbPasses_le (o : FloatOps) (p : MandelbulbP) (pos : MQ4) :
    mandelbulbPasses o p pos ≤ p.iterations := by
  unfold mandelbulbPasses mandelbulbRun
  exact mbLoop_count_le _ _ _ _ _ _

/-- The hue of `Mandelbulb::get_color` at `iterations_reached = 0`,
`pos = 0`, `time = 0`: `sin 0 * 0.5 + 0.5 + cos 0 * 0.3 + sin 0 * 0.2
= 0.8`. -/
theorem mandelbulbHue_eval (o : FloatOps)
    (hsin0 : o.sin 0 = some 0) (hcos0 : o.cos 0 = some 1) :
    mandelbulbHue o ⟨6, 8, 0⟩ 0 ⟨0, 0, 0, 0⟩ = some (4/5) := by
  unfold mandelbulbHue mbBaseHueArg mbDepthHueArg mbPositionHueArg
  norm_num [hsin0, hcos0]
  rw [MF.fract_some_of_Ico (4/5) (by norm_num) (by norm_num)]

/-- `hsv_to_rgb` at hue 0.8, saturation 1.2, value 3.5: the fifth sextant
is selected and the channels are `(2.66, -0.7, 3.5)` — the green channel is
negative and the blue channel exceeds 1. -/
theorem hsvToRgb_eval :
    hsvToRgb (some (4/5)) (some (6/5)) (some (7/2)) =
      (some (133/50), some (-7/10), some (7/2)) := by
  unfold hsvToRgb
  norm_num [MF.frem, MF.ratTrunc]
  rw [show |(1/5 : ℚ)| = 1/5 from abs_of_nonneg (by norm_num)]
  norm_num

/-- `Mandelbulb::get_color` with `iterations_reached = 0`,
`distance = -1` (a finite value), `pos = 0`, `time = 0` yields saturation
`0.8 + (1 - min(-1, 1)) * 0.2 = 1.2` and value
`(1 - min(-4, 0.9)) * 0.7 = 3.5`, and hence the out-of-range colour
`(2.66, -0.7, 3.5)`. -/
theorem mandelbulbGetColor_eval (o : FloatOps)
    (hsin0 : o.sin 0 = some 0) (hcos0 : o.cos 0 = some 1) :
    mandelbulbGetColor o ⟨6, 8, 0⟩ 0 (some (-1)) ⟨0, 0, 0, 0⟩ =
      (some (133/50), some (-7/10), some (7/2)) := by
  unfold mandelbulbGetColor
  rw [mandelbulbHue_eval o hsin0 hcos0]
  norm_num [hsin0]
  convert hsvToRgb_eval using 2
  norm_num

/-!
## Claim C1 — boundedness of the distance estimators

The claim asserts that every variant returns a finite, non-NaN value for
every finite input, explicitly including `pos = (0,0,0,w)` for the
Mandelbulb.  The loop-bound half of the claim holds (the loop performs at
most `iterations` passes), but at `pos = (0,0,0,0)` the Mandelbulb iterate
starts with `r = 0`, the unguarded `acos(z.z / r)` computes `acos(0/0) =
NaN`, and NaN propagates to the returned distance — the code lacks the
guard the specification itself demands (spec sections 4.2 and 7), so this
is a bug in the code. -/

/-- C1: the Mandelbulb loop performs at most `iterations` passes for every
parameter record and input (the bounded-loop half of the claim holds), but
for the factory field of seed 0 (a Mandelbulb with power 6, iterations 8,
time 0) the distance estimator at `pos = (0,0,0,0)` returns NaN — refuting
the finiteness half of the claim.  The hypotheses are concrete facts of the
IEEE `f32` functions: `sin 0 = 0`, `sqrt 0 = 0`, `0^5 = 0`, `0^6 = 0`. -/
theorem c1_boundedness_fails (o : FloatOps)
    (hsin0 : o.sin 0 = some 0) (hsqrt0 : o.sqrt 0 = some 0)
    (hp5 : o.powf 0 5 = some 0) (hp6 : o.powf 0 6 = some 0) :
    (∀ (p : MandelbulbP) (pos : MQ4),
      mandelbulbPasses o p pos ≤ p.iterations) ∧
    createFractalFromSeed 0 0 = FractalField.mandelbulb 6 8 0 ∧
    mandelbulbDE o ⟨6, 8, 0⟩ ⟨0, 0, 0, 0⟩ = none := by
  refine ⟨fun p pos => mandelbulbPasses_le o p pos, ?_,
    mandelbulbDE_origin_nan o hsin0 hsqrt0 hp5 hp6⟩
  simp [createFractalFromSeed]

/-- C1 witness: the hypotheses of `c1_boundedness_fails` hold for the
concrete interpretation `stubOps`. -/
theorem c1_witness :
    (∀ (p : MandelbulbP) (pos : MQ4),
      mandelbulbPasses stubOps p pos ≤ p.iterations) ∧
    createFractalFromSeed 0 0 = FractalField.mandelbulb 6 8 0 ∧
    mandelbulbDE stubOps ⟨6, 8, 0⟩ ⟨0, 0, 0, 0⟩ = none :=
  c1_boundedness_fails stubOps rfl rfl rfl rfl

/-!
## Claim C2 — host/GPU agreement
-/

/-- C2: the claim that the host-side and GPU-side implementations agree in
iteration counts, constants and formulas fails: the iteration caps already
disagree for all three families.  Host Mandelbulb for seed 0 runs
`8 + (0/24) % 4 = 8` passes, the shader `mandelbulb` cap is 10; host
Julia4D for seed 13 runs `8 + (13/13) % 6 = 9`, the shader `julia4d` cap
is 8; host KaleidoIFS for seed 2 folds `4 + (2/7) % 8 = 4` times, the
shader `kaleidoIFS` cap is 5. -/
theorem c2_iteration_caps_differ :
    ((createFractalFromSeed 0 0).familyName = "Mandelbulb" ∧
      (createFractalFromSeed 0 0).iterBound = 8 ∧
      shaderMandelbulbCap = 10 ∧ (8 : ℕ) ≠ 10) ∧
    ((createFractalFromSeed 13 0).familyName = "Julia4D" ∧
      (createFractalFromSeed 13 0).iterBound = 9 ∧
      shaderJulia4dCap = 8 ∧ (9 : ℕ) ≠ 8) ∧
    ((createFractalFromSeed 2 0).familyName = "KaleidoIFS" ∧
      (createFractalFromSeed 2 0).iterBound = 4 ∧
      shaderKaleidoCap = 5 ∧ (4 : ℕ) ≠ 5) := by
  decide

/-!
## Claim C3 — colour channels in [0, 1]
-/

/-- C3: `get_color` does not always return channels in `[0, 1]`.  For the
Mandelbulb field with power 6, iterations 8, time 0, the call
`get_color(0, -1.0, (0,0,0,0))` (a finite distance argument, as the claim
allows) returns the colour `(2.66, -0.7, 3.5)`: the green channel is below
0 and the red and blue channels exceed 1 — the clamping required by spec
section 7 is absent from the code. -/
theorem c3_color_out_of_range (o : FloatOps)
    (hsin0 : o.sin 0 = some 0) (hcos0 : o.cos 0 = some 1) :
    mandelbulbGetColor o ⟨6, 8, 0⟩ 0 (some (-1)) ⟨0, 0, 0, 0⟩ =
      (some (133/50), some (-7/10), some (7/2)) ∧
    (-7/10 : ℚ) < 0 ∧ (1 : ℚ) < 7/2 :=
  ⟨mandelbulbGetColor_eval o hsin0 hcos0, by norm_num, by norm_num⟩

/-- C3 witness: the hypotheses of `c3_color_out_of_range` hold for the
concrete interpretation `stubOps`. -/
theorem c3_witness :
    mandelbulbGetColor stubOps ⟨6, 8, 0⟩ 0 (some (-1)) ⟨0, 0, 0, 0⟩ =
      (some (133/50), some (-7/10), some (7/2)) ∧
    (-7/10 : ℚ) < 0 ∧ (1 : ℚ) < 7/2 :=
  c3_color_out_of_range stubOps rfl rfl

/-!
## Claim C4 — the seed-123456 scenario
-/

/-- C4 counterexample: `123456 % 3 = 0`, so for seed 123456 the factory
returns a Mandelbulb field, not the Julia4D field the claim asserts. -/
theorem c4_counterexample :
    (createFractalFromSeed 123456 0).familyName = "Mandelbulb" ∧
    (createFractalFromSeed 123456 0).familyName ≠ "Julia4D" := by
  decide

/-- C4 amended: for seed 123456 and time 0 the factory returns the
Mandelbulb field with `power = 6 + (123456/3) % 8 = 6` and
`iterations = 8 + (123456/24) % 4 = 8`; evaluating its distance estimator
at `pos = (0,0,0,0)` terminates after exactly its 8 allotted loop passes
but returns NaN, not a finite value, because of the unguarded
`acos(0/0)` in the first pass. -/
theorem c4_amended_mandelbulb (o : FloatOps)
    (hsin0 : o.sin 0 = some 0) (hsqrt0 : o.sqrt 0 = some 0)
    (hp5 : o.powf 0 5 = some 0) (hp6 : o.powf 0 6 = some 0) :
    createFractalFromSeed 123456 0 = FractalField.mandelbulb 6 8 0 ∧
    mandelbulbPasses o ⟨6, 8, 0⟩ ⟨0, 0, 0, 0⟩ = 8 ∧
    mandelbulbDE o ⟨6, 8, 0⟩ ⟨0, 0, 0, 0⟩ = none := by
  refine ⟨?_, mandelbulbPasses_origin o hsin0 hsqrt0 hp5 hp6,
    mandelbulbDE_origin_nan o hsin0 hsqrt0 hp5 hp6⟩
  simp [createFractalFromSeed, show (123456 : ℕ) % 3 = 0 from by norm_num]

/-- C4 witness: the hypotheses of `c4_amended_mandelbulb` hold for the
concrete interpretation `stubOps`. -/
theorem c4_witness :
    createFractalFromSeed 123456 0 = FractalField.mandelbulb 6 8 0 ∧
    mandelbulbPasses stubOps ⟨6, 8, 0⟩ ⟨0, 0, 0, 0⟩ = 8 ∧
    mandelbulbDE stubOps ⟨6, 8, 0⟩ ⟨0, 0, 0, 0⟩ = none :=
  c4_amended_mandelbulb stubOps rfl rfl rfl rfl

/-!
## Claim C5 — the daily seed hash
-/

/-- C5 counterexample: for the empty user id and the calendar date
2026-10-12 (1-based month 10), the seed the code computes differs from the
hash the claim describes: the code hashes the digits of 20260912 (using
the 0-based JavaScript `get_month()`), not of 20261012 as the 1-based
month of the claim would give. -/
theorem c5_counterexample :
    generateDailySeed [] 2026 10 12 ≠ specDailySeed [] 2026 10 12 := by
  decide

/-- C5 amended: `generate_daily_seed` computes the 32-bit wrapping rolling
hash `hash = hash*31 + byte` over the user-id bytes followed by the decimal
digits of `year*10000 + (month-1)*100 + day` — the 0-based JavaScript month,
i.e. the calendar month minus one — always producing a value below `2^32`;
being a pure function, repeated calls with the same `(user_id, date)` yield
the identical value. -/
theorem c5_amended_hash : ∀ (userBytes : List ℕ) (year month day : ℕ),
    generateDailySeed userBytes year month day < 2 ^ 32 ∧
    generateDailySeed userBytes year month day =
      specDailySeed userBytes year (month - 1) day := by
  intro u y m d
  exact ⟨rollHash_lt _, rfl⟩

/-!
## Claim C6 — frequency extraction
-/

/-- C6: the length/order/formula part of the claim holds by construction,
but the lower bound `≥ 220 * 0.5` fails: for the factory field of seed 0
(a Mandelbulb with power 6, iterations 8, time 0) and the single sample
point `(0,0,0,0)`, the extracted frequency list is `[NaN]` — the distance
estimate is NaN (claim C1) and `220 * (1 + NaN*0.5) * (1 + red*0.3)` is
NaN, which is not `≥ 110`. -/
theorem c6_frequency_nan (o : FloatOps)
    (hsin0 : o.sin 0 = some 0) (hsqrt0 : o.sqrt 0 = some 0)
    (hp5 : o.powf 0 5 = some 0) (hp6 : o.powf 0 6 = some 0) :
    extractFrequencies (mandelbulbGen o ⟨6, 8, 0⟩) [⟨0, 0, 0, 0⟩] =
      [none] := by
  have hde := mandelbulbDE_origin_nan o hsin0 hsqrt0 hp5 hp6
  simp [extractFrequencies, mandelbulbGen, hde]

/-- C6 witness: the hypotheses of `c6_frequency_nan` hold for the concrete
interpretation `stubOps`. -/
theorem c6_witness :
    extractFrequencies (mandelbulbGen stubOps ⟨6, 8, 0⟩) [⟨0, 0, 0, 0⟩] =
      [none] :=
  c6_frequency_nan stubOps rfl rfl rfl rfl

/-!
## Claim C7 — factory iteration bounds
-/

/-- C7: for every seed and time, the field produced by
`create_fractal_from_seed` has a loop bound (`iterations`, respectively
`fold_count`) in the interval `[1, 16]`: Mandelbulb `8 + (seed/24) % 4 ∈
[8, 11]`, Julia4D `8 + (seed/13) % 6 ∈ [8, 13]`, KaleidoIFS
`4 + (seed/7) % 8 ∈ [4, 11]`. -/
theorem c7_factory_iteration_bounds : ∀ (seed : ℕ) (time : ℚ),
    1 ≤ (createFractalFromSeed seed time).iterBound ∧
    (createFractalFromSeed seed time).iterBound ≤ 16 := by
  intro seed time
  have h : seed % 3 = 0 ∨ seed % 3 = 1 ∨ seed % 3 = 2 := by omega
  rcases h with h | h | h <;>
    simp [createFractalFromSeed, h, FractalField.iterBound] <;> omega

/-!
## Claim C8 — resonance score structure and range
-/

/-- C8: `calculate_resonance` is the average of the trace-similarity term
`1/(1 + |trace_a - trace_b|)` and the seed-harmony term
`1/(1 + |seed_a - seed_b|/1000)`, each of which lies in `(0, 1]`, and the
resonance score itself lies in `(0, 1]` (matrices are finite by the
rational model). -/
theorem c8_resonance_range : ∀ a b : FrozenFractal,
    calculateResonance a b = (traceSimilarity a b + seedHarmony a b) * (1/2) ∧
    0 < traceSimilarity a b ∧ traceSimilarity a b ≤ 1 ∧
    0 < seedHarmony a b ∧ seedHarmony a b ≤ 1 ∧
    0 < calculateResonance a b ∧ calculateResonance a b ≤ 1 := by
  intro a b
  have h1 : 0 < traceSimilarity a b ∧ traceSimilarity a b ≤ 1 :=
    oneDivOneAdd _ (abs_nonneg _)
  have h2 : 0 < seedHarmony a b ∧ seedHarmony a b ≤ 1 :=
    oneDivOneAdd _ (by positivity)
  refine ⟨rfl, h1.1, h1.2, h2.1, h2.2, ?_, ?_⟩
  · show 0 < (traceSimilarity a b + seedHarmony a b) * (1/2)
    linarith [h1.1, h2.1]
  · show (traceSimilarity a b + seedHarmony a b) * (1/2) ≤ 1
    linarith [h1.2, h2.2]

/-!
## Claim C9 — hue wrap into [0, 1)
-/

/-- C9: the hue passed to HSV conversion by `Mandelbulb::get_color` is NOT
always in `[0, 1)`: whenever the three trigonometric factors evaluate to
values in `[-1, -3/5]` (which the genuine IEEE sine and cosine attain at
suitable arguments), the summed hue contributions are negative, and
`f32::fract` returns that negative sum unchanged — the wrap is not a
modular wrap into `[0, 1)`. -/
theorem c9_hue_not_wrapped (o : FloatOps) (p : MandelbulbP) (it : ℤ)
    (pos : MQ4) (s1 c2 s3 : ℚ)
    (h1 : o.msin (mbBaseHueArg p it) = some s1)
    (h2 : o.cos (mbDepthHueArg p pos) = some c2)
    (h3 : o.sin (mbPositionHueArg p pos) = some s3)
    (hb1 : -1 ≤ s1) (hb1' : s1 ≤ -3/5)
    (hb2 : -1 ≤ c2) (hb2' : c2 ≤ -3/5)
    (hb3 : -1 ≤ s3) (hb3' : s3 ≤ -3/5) :
    mandelbulbHue o p it pos =
      some (s1 * (1/2) + 1/2 + c2 * (3/10) + s3 * (1/5)) ∧
    s1 * (1/2) + 1/2 + c2 * (3/10) + s3 * (1/5) < 0 := by
  have hneg : s1 * (1/2) + 1/2 + c2 * (3/10) + s3 * (1/5) < 0 := by linarith
  have hgt : (-1 : ℚ) < s1 * (1/2) + 1/2 + c2 * (3/10) + s3 * (1/5) := by
    linarith
  refine ⟨?_, hneg⟩
  unfold mandelbulbHue
  rw [h1]
  simp only [FloatOps.mcos_some, FloatOps.msin_some]
  rw [h2, h3]
  simp only [MF.some_mul_some, MF.some_add_some]
  exact MF.fract_some_neg _ hgt hneg

/-- C9 witness: the hypotheses of `c9_hue_not_wrapped` hold for the
concrete interpretation `hueStubOps` at `p = (6, 8, 0)`, `it = 0`,
`pos = 0`, with all three trigonometric values equal to `-1`. -/
theorem c9_witness :
    mandelbulbHue hueStubOps ⟨6, 8, 0⟩ 0 ⟨0, 0, 0, 0⟩ =
      some ((-1) * (1/2) + 1/2 + (-1) * (3/10) + (-1) * (1/5)) ∧
    (-1 : ℚ) * (1/2) + 1/2 + (-1) * (3/10) + (-1) * (1/5) < 0 :=
  c9_hue_not_wrapped hueStubOps ⟨6, 8, 0⟩ 0 ⟨0, 0, 0, 0⟩ (-1) (-1) (-1)
    (by norm_num [hueStubOps, mbBaseHueArg]) (by norm_num [hueStubOps])
    (by norm_num [hueStubOps]) (by norm_num) (by norm_num) (by norm_num)
    (by norm_num) (by norm_num) (by norm_num)

/-!
## Claim C10 — resonance symmetry
-/

/-- C10: the resonance computation is symmetric in its two snapshot
arguments: both `|trace_a - trace_b|` and `|seed_a - seed_b|` are
symmetric. -/
theorem c10_resonance_symm : ∀ a b : FrozenFractal,
    calculateResonance a b = calculateResonance b a := by
  intro a b
  unfold calculateResonance traceSimilarity seedHarmony
  rw [abs_sub_comm (traceOfRowSlice a.transformMatrix),
    abs_sub_comm ((a.seed : ℚ))]
